import Mathlib

/-!
Verification of the `dev_assistant` repository: an interactive command-line
assistant that collects a project file tree and file contents, merges them
into a templated prompt and forwards it to a chat-completion API.

The Python sources are shallowly embedded: Python strings are Lean `String`s
whose operations (strip, split, lower, substring search, lexicographic
comparison) are implemented over their code-point lists `String.data`,
matching Python's code-point semantics; filesystem and network effects are
abstracted as explicit oracle parameters; a raised Python exception is an
`Except`/`Option` error value.
-/

/-! ### Python string primitives -/

/-- The character U+007B, written by code point. -/
def lbrace : Char := Char.ofNat 123

/-- The character U+007D, written by code point. -/
def rbrace : Char := Char.ofNat 125

/-- Python `str.strip()` on a code-point list: remove leading and trailing
whitespace. -/
def pyStripChars (cs : List Char) : List Char :=
  ((cs.dropWhile Char.isWhitespace).reverse.dropWhile Char.isWhitespace).reverse

/-- Python `str.strip()`. -/
def pyStrip (s : String) : String := String.mk (pyStripChars s.data)

/-- Python `str.lower()` (ASCII case folding, which is all this codebase
feeds it). -/
def pyLower (s : String) : String := String.mk (s.data.map Char.toLower)

/-- Python `str.split(sep)` for a one-character separator `sep`, on
code-point lists.  `"".split(sep)` is `[""]`, matching Python. -/
def splitOnChar (sep : Char) (cs : List Char) : List (List Char) :=
  cs.foldr
    (fun c acc =>
      match acc with
      | cur :: rest => if c = sep then [] :: cur :: rest else (c :: cur) :: rest
      | [] => [[c]])
    [[]]

/-- Python `needle in hay` on strings: substring containment. -/
def pyIn (needle hay : String) : Bool :=
  hay.data.tails.any (fun t => needle.data.isPrefixOf t)

/-! ### Python `str.format`

`src/prompts.py` and `src/main.py` only ever use simple named replacement
fields, so the model implements exactly those: `\x7bname\x7d` is replaced by
the value bound to `name`, a doubled brace is an escaped literal brace, and a
field name absent from the mapping raises `KeyError(name)`, modelled as
`Except.error name`.  Substitution is single-pass: substituted values are
never rescanned, as in Python. -/

/-- Scanner state of the `str.format` parser: outside any field, just after
an opening brace, just after a closing brace, or inside a field name. -/
inductive FmtState where
  | normal
  | sawOpen
  | sawClose
  | field (acc : String)

/-- Worker for `pyFormat`: a one-character-per-step scanner over the
template's code points. -/
def pyFormatGo (ctx : List (String × String)) :
    FmtState → List Char → Except String String
  | FmtState.normal, [] => Except.ok ""
  | FmtState.normal, c :: cs =>
    if c = lbrace then pyFormatGo ctx FmtState.sawOpen cs
    else if c = rbrace then pyFormatGo ctx FmtState.sawClose cs
    else (pyFormatGo ctx FmtState.normal cs).map (fun s => String.mk (c :: s.data))
  | FmtState.sawOpen, [] => Except.error "ValueError: single opening brace encountered"
  | FmtState.sawOpen, c :: cs =>
    if c = lbrace then
      (pyFormatGo ctx FmtState.normal cs).map (fun s => String.mk (lbrace :: s.data))
    else if c = rbrace then
      match ctx.lookup "" with
      | some v => (pyFormatGo ctx FmtState.normal cs).map (fun s => v ++ s)
      | none => Except.error ""
    else pyFormatGo ctx (FmtState.field (String.singleton c)) cs
  | FmtState.sawClose, [] => Except.error "ValueError: single closing brace encountered"
  | FmtState.sawClose, c :: cs =>
    if c = rbrace then
      (pyFormatGo ctx FmtState.normal cs).map (fun s => String.mk (rbrace :: s.data))
    else Except.error "ValueError: single closing brace encountered"
  | FmtState.field _, [] => Except.error "ValueError: unterminated replacement field"
  | FmtState.field acc, c :: cs =>
    if c = rbrace then
      match ctx.lookup acc with
      | some v => (pyFormatGo ctx FmtState.normal cs).map (fun s => v ++ s)
      | none => Except.error acc
    else pyFormatGo ctx (FmtState.field (acc.push c)) cs

/-- Python `template.format(**ctx)`, for the simple named fields this
codebase uses.  `Except.error name` models `KeyError: name`. -/
def pyFormat (template : String) (ctx : List (String × String)) :
    Except String String :=
  pyFormatGo ctx FmtState.normal template.data

/-! ### src/openai_api_handler.py -/

/-- Outcome of one `client.chat.completions.create` call: either the content
string of the first choice's message, or a raised exception with its
message. -/
inductive TransportResult where
  | success (content : String)
  | failure (message : String)
deriving DecidableEq

/-- A chat message as prepared for the API. -/
structure Message where
  role : String
  content : String
deriving DecidableEq

/-- `prepare_messages` from src/openai_api_handler.py. -/
def prepare_messages (system_content user_content : String) : List Message :=
  [⟨"system", system_content⟩, ⟨"user", user_content⟩]

/-- The uniform message of the `ValueError` raised by `call_openai_api` when
the remote call fails. -/
def API_ERROR_MESSAGE : String :=
  "An error occurred while communicating with the OpenAI API."

/-- `call_openai_api` from src/openai_api_handler.py.  The remote endpoint is
abstracted as `transport n`, the outcome the `n`-th
`chat.completions.create` call would have; the returned `Nat` counts how
many remote calls the body performs (its single `try` block makes exactly
one attempt, with no loop around it).  `response.choices[0].message.content`
is the success payload, and `.strip()` is `pyStrip`. -/
def call_openai_api (useRealOpenaiApi : Bool) (transport : Nat → TransportResult)
    (dummyResponse : String) : Except String String × Nat :=
  if useRealOpenaiApi then
    match transport 0 with
    | TransportResult.success content => (Except.ok (pyStrip content), 1)
    | TransportResult.failure _ => (Except.error API_ERROR_MESSAGE, 1)
  else
    (Except.ok dummyResponse, 0)

/-- The kind of a raised Python exception, as far as the handler
distinguishes them: `valueError` is the uniform API-communication error
raised in `call_openai_api`; `osError` is an I/O error escaping a file
write. -/
inductive PyError where
  | valueError (message : String)
  | osError (message : String)
deriving DecidableEq

/-- Outcome of a filesystem write. -/
inductive WriteResult where
  | ok
  | ioError (message : String)
deriving DecidableEq

/-- A wall-clock timestamp, to the second. -/
structure DateTime where
  year : Nat
  month : Nat
  day : Nat
  hour : Nat
  minute : Nat
  second : Nat
deriving DecidableEq

/-- Zero-padding to two digits, as `%m %d %H %M %S` produce. -/
def pad2 (n : Nat) : String := if n < 10 then "0" ++ toString n else toString n

/-- Zero-padding to four digits, as `%Y` produces. -/
def pad4 (n : Nat) : String :=
  if n < 10 then "000" ++ toString n
  else if n < 100 then "00" ++ toString n
  else if n < 1000 then "0" ++ toString n
  else toString n

/-- `datetime.now().strftime("%Y%m%d_%H%M%S")`. -/
def strftime_Ymd_HMS (t : DateTime) : String :=
  pad4 t.year ++ pad2 t.month ++ pad2 t.day ++ "_"
    ++ pad2 t.hour ++ pad2 t.minute ++ pad2 t.second

/-- `process_and_analyze_file` from src/openai_api_handler.py.  The token
counting and cost estimation steps only feed the logger and are elided;
`now` is the wall clock when the output file is named; `write fn text` is
the effect of opening `fn` and writing `text`, and an `ioError` from it
propagates out of the function (the write is not wrapped in any
`try`/`except`). -/
def process_and_analyze_file (useRealOpenaiApi : Bool)
    (transport : Nat → TransportResult) (dummyResponse : String)
    (system_content user_content : String) (now : DateTime)
    (write : String → String → WriteResult) : Except PyError String :=
  let _messages := prepare_messages system_content user_content
  match (call_openai_api useRealOpenaiApi transport dummyResponse).1 with
  | Except.error m => Except.error (PyError.valueError m)
  | Except.ok result =>
    let file_name := "openai_response_" ++ strftime_Ymd_HMS now ++ ".txt"
    match write file_name result with
    | WriteResult.ok => Except.ok result
    | WriteResult.ioError m => Except.error (PyError.osError m)

/-! ### src/main.py: interactive driver pieces -/

/-- `ask_directory_or_files` from src/main.py.  The filesystem is abstracted
by the oracles `isDir`, `isFile` and `walk` (the latter standing for
`get_files_from_directory`); `choice` is the operator's answer to the
"directory or files" question and `answer` the reply they would give to the
follow-up question.  `none` models Python's implicit `None` return on the
invalid-choice path.  The body has no loop: it consumes at most these two
answers and returns. -/
def ask_directory_or_files (isDir isFile : String → Bool)
    (walk : String → List String) (choice answer : String) :
    Option (List String) :=
  let c := pyLower (pyStrip choice)
  if c = "d" then
    let directory := pyStrip answer
    if isDir directory then some (walk directory) else none
  else if c = "f" then
    let files := (splitOnChar ',' (pyStrip answer).data).map String.mk
    let valid_files :=
      (files.filter (fun file => isFile (pyStrip file))).map (fun file => pyStrip file)
    some valid_files
  else
    none

/-! ### src/prompts.py

The template literals, with their `.strip()` already applied (each Python
literal starts and ends with a newline that `.strip()` removes). -/

def ROLE_PROMPT : String := "Role: You are a professional {role}."

def PROJECT_STRUCTURE_PROMPT : String := "Project structure:\n{project_structure}"

def PROJECT_FILES_PROMPT : String := "Project files:\n{project_files}"

def STANDARD_INFORMATION : String :=
  "{ROLE_PROMPT}\n{PROJECT_STRUCTURE_PROMPT}\n{PROJECT_FILES_PROMPT}"

def STANDARD_NOTES : String :=
  "Notes:\n- Respond concisely and directly, avoiding unnecessary polite language.\n- If the provided information is unclear or incomplete, ask for clarification or additional details."

def FEATURE_IMPLEMENTATION_PROMPT : String :=
  "{STANDARD_INFORMATION}\nFeature description:\n{feature_description}\n\nTask:\n- Review the structure and all provided files.\n- Check if the feature request is clear, feasible, and aligns with the project\x27s coding standards and structure.\n- Gather information about tools, libraries, and dependencies from the provided files, structure, and task.\n- Use versions of libraries, frameworks, and dependencies found in the provided files or, if not specified, use the newest stable versions.\n- Summarize the task, your analysis, and proposed steps before starting work to ensure mutual understanding.\n- Think step by step when analyzing, planning, and implementing the task.\n- Point out mistakes, missing details, or inconsistencies.\n- Implement the feature by providing full, updated files or new files, not just code snippets. Ensure the implementation integrates seamlessly with the existing project structure.\n- If conflicts or unexpected issues arise during implementation, describe the issue and suggest resolutions.\n- If applicable, include unit tests or test cases to validate the feature.\n- After completing the task, review your response to ensure it is accurate, complete, and meets the provided requirements.\n\n{STANDARD_NOTES}\n- Provide brief comments in the code to explain key changes or additions.\n- Include a summary of changes and reasoning behind implementation decisions.\n- Follow the project\x27s existing naming conventions, structure, and coding style.\n- Ensure the implementation is efficient and maintainable.\n- Deliverables must be functional, tested, and ready for integration."

def DEBUGGING_PROMPT : String :=
  "{STANDARD_INFORMATION}\nError:\n{error}\n\nTask:\n- Review the project structure, all provided files, and the error.\n- Analyze the error to identify the source of the error.\n- Check if the issue relates to misused libraries, coding errors, or environmental/setup problems.\n- If you know how to fix the issue and it is applicable, your main task is to rewrite the code and provide the fix.\n- Use information from the project files and error to propose a solution.\n- Suggest debugging steps or modifications to resolve the issue if a direct fix is not applicable.\n- Summarize the problem, your analysis, and proposed steps before providing the solution to ensure understanding.\n- After completing the debugging, review your response to ensure it is accurate and complete.\n\n{STANDARD_NOTES}\n- Clearly explain the cause of the error and the reasoning behind your solution.\n- Follow the project\x27s coding standards and structure when suggesting changes.\n- Ensure the proposed solution is efficient, maintainable, and compatible with the existing project setup."

def README_GENERATION_PROMPT : String :=
  "{STANDARD_INFORMATION}\n\nTask:\n- Review the project structure and all provided files.\n- Thoroughly analyze the provided files to extract relevant information for README content.\n- Detect and adhere to any style or pattern in README files for consistency.\n- Identify areas where README files are missing or insufficient.\n- Propose and create new README files for components, directories, or sections that need documentation.\n- Suggest merging, splitting, or moving README files to improve clarity and organization.\n- Update existing README files to reflect the latest state of the project.\n- Ensure all README files adhere to consistent formatting and structure based on the detected style or pattern.\n- Include relevant information based on the detected style or the project\x27s needs, such as component overviews, usage instructions, dependencies, troubleshooting steps, or contribution guidelines.\n- Summarize the task, your analysis, and proposed steps before starting implementation to ensure alignment.\n- After completing the updates, review your response to ensure all changes are accurate and comprehensive.\n\n{STANDARD_NOTES}\n- Follow the project’s style and structure when creating or updating README files.\n- Ensure the README files are helpful, maintainable, and relevant to the target audience."

/-- `ASSISTANCE_TYPES` from src/prompts.py. -/
def ASSISTANCE_TYPES : List (String × String) :=
  [("feature_implementation", FEATURE_IMPLEMENTATION_PROMPT),
   ("debugging", DEBUGGING_PROMPT),
   ("readme_generation", README_GENERATION_PROMPT)]

/-- `ROLES` from src/prompts.py. -/
def ROLES : List String :=
  ["Web Developer",
   "Data Scientist/Machine Learning Engineer",
   "DevOps Engineer",
   "Python Developer"]

/-- `PROMPT_PARAMETERS` from src/prompts.py: the required parameter names of
each assistance template. -/
def PROMPT_PARAMETERS : List (String × List String) :=
  [(FEATURE_IMPLEMENTATION_PROMPT, ["feature_description"]),
   (DEBUGGING_PROMPT, ["error"]),
   (README_GENERATION_PROMPT, [])]

/-- `build_final_prompt` from src/main.py.  Python's `str.format` raises on
a field name missing from its keyword arguments, so each `.format(...)`
call is a `pyFormat` in the `Except` monad.  The merge
`{**standard_context, **additional_params}` lets `additional_params` win on
key clashes, and `List.lookup` takes the first hit, so `additional_params`
is placed first. -/
def build_final_prompt (role project_structure project_files prompt_template : String)
    (additional_params : List (String × String)) :
    Except String (String × String) := do
  let role_prompt_filled ← pyFormat ROLE_PROMPT [("role", role)]
  let project_structure_prompt_filled ← pyFormat PROJECT_STRUCTURE_PROMPT
      [("project_structure", project_structure)]
  let project_files_prompt_filled ← pyFormat PROJECT_FILES_PROMPT
      [("project_files", project_files)]
  let standard_info_filled ← pyFormat STANDARD_INFORMATION
      [("PROJECT_STRUCTURE_PROMPT", project_structure_prompt_filled),
       ("PROJECT_FILES_PROMPT", project_files_prompt_filled),
       ("STANDARD_NOTES", STANDARD_NOTES)]
  let combined_context := additional_params ++
      [("STANDARD_INFORMATION", standard_info_filled),
       ("STANDARD_NOTES", STANDARD_NOTES)]
  let final_prompt ← pyFormat prompt_template combined_context
  return (role_prompt_filled, final_prompt)

/-! ### src/main.py: the collector -/

/-- `IGNORED_FILE_PATTERNS` from src/main.py. -/
def IGNORED_FILE_PATTERNS : List String :=
  [".git", "__pycache__", ".idea", ".ipynb_checkpoints", ".env",
   "environment.yml", "final_prompt.md"]

/-- `IGNORED_DIRECTORIES` from src/main.py. -/
def IGNORED_DIRECTORIES : List String := [".git", "__pycache__", ".idea"]

/-- `os.sep` on the POSIX systems this tool targets. -/
def osSepChar : Char := '/'

/-- `os.path.basename` for `/`-separated paths: everything after the last
separator. -/
def basename (p : String) : String :=
  String.mk ((splitOnChar osSepChar p.data).getLastD [])

/-- `os.path.dirname` for `/`-separated relative paths: everything before
the last separator (empty when there is none). -/
def dirname (p : String) : String :=
  String.mk (List.intercalate [osSepChar] ((splitOnChar osSepChar p.data).dropLast))

/-- `should_ignore_file` from src/main.py: Python's `pattern in file_name`
is substring containment on the basename. -/
def should_ignore_file (file_path : String) : Bool :=
  IGNORED_FILE_PATTERNS.any (fun pattern => pyIn pattern (basename file_path))

/-- `is_in_ignored_directory` from src/main.py: Python's
`ignored_dir in directory_parts` is exact membership in the list of
components of `os.path.dirname(file_path)`. -/
def is_in_ignored_directory (file_path : String) : Bool :=
  IGNORED_DIRECTORIES.any
    (fun ignored_dir =>
      (splitOnChar osSepChar (dirname file_path).data).contains ignored_dir.data)

/-- A collected file, as the dictionaries built by `extract_file_content`. -/
structure FileRecord where
  file_name : String
  code_type : Option String
  content : String
deriving DecidableEq

/-- `extract_file_content` from src/main.py.  The Pygments lexer guess is
the oracle `detect` (`none` when `ClassNotFound` is raised),
`os.path.relpath` is the oracle `relpath`, and opening and reading a file
is the oracle `read` (`none` models any read failure, which is logged and
skipped). -/
def extract_file_content (detect : String → Option String)
    (relpath : String → String) (read : String → Option String) :
    List String → List FileRecord
  | [] => []
  | file :: rest =>
    if should_ignore_file file then extract_file_content detect relpath read rest
    else if is_in_ignored_directory file then
      extract_file_content detect relpath read rest
    else
      let code_type := detect file
      match read file with
      | none => extract_file_content detect relpath read rest
      | some raw =>
        let content := pyStrip raw
        if content = "" then extract_file_content detect relpath read rest
        else
          { file_name := relpath file, code_type := code_type, content := content }
            :: extract_file_content detect relpath read rest

/-- The records `extract_file_content` produces for one input file: the
empty list when the loop body skips the file, a singleton otherwise. -/
def recordFor (detect : String → Option String) (relpath : String → String)
    (read : String → Option String) (file : String) : List FileRecord :=
  if should_ignore_file file then []
  else if is_in_ignored_directory file then []
  else
    match read file with
    | none => []
    | some raw =>
      let content := pyStrip raw
      if content = "" then []
      else [{ file_name := relpath file, code_type := detect file, content := content }]

/-- Whether some component of the directory part of `file_path` is exactly
`.git` or `__pycache__` — "the file lies anywhere under a directory named
`.git` or `__pycache__`". -/
def underGitOrPycache (file_path : String) : Bool :=
  (splitOnChar osSepChar (dirname file_path).data).contains ".git".data
    || (splitOnChar osSepChar (dirname file_path).data).contains "__pycache__".data

/-- Whether `read` sees `file` as existing with content that is empty after
trimming. -/
def readsToEmpty (read : String → Option String) (file : String) : Bool :=
  match read file with
  | some raw => pyStrip raw == ""
  | none => false

/-! ### A filesystem model

A fixed filesystem state is a finite tree of named files and directories;
the order of `entries` is the order in which the operating system lists a
directory (the order `os.listdir` and `os.walk` observe). -/

inductive FSEntry where
  | file (name : String)
  | dir (name : String) (entries : List FSEntry)

/-- The name of a filesystem entry. -/
def FSEntry.name : FSEntry → String
  | .file n => n
  | .dir n _ => n

/-- `os.path.join` for a relative second component on POSIX. -/
def pathJoin (a b : String) : String := a ++ "/" ++ b

/-- The subdirectory names of a listing, in listing order. -/
def dirNames (es : List FSEntry) : List String :=
  es.filterMap (fun e => match e with | .dir n _ => some n | .file _ => none)

/-- The file names of a listing, in listing order. -/
def fileNames (es : List FSEntry) : List String :=
  es.filterMap (fun e => match e with | .file n => some n | .dir _ _ => none)

mutual

/-- `os.walk(path)` with the default top-down order: for each directory,
one `(root, dirnames, filenames)` row, the root's row first, then the rows
of each subdirectory in listing order.  Walking a non-directory yields
nothing. -/
def osWalk (path : String) : FSEntry → List (String × List String × List String)
  | .file _ => []
  | .dir _ es => (path, dirNames es, fileNames es) :: osWalkList path es

/-- The rows contributed by the subdirectories of a listing. -/
def osWalkList (path : String) : List FSEntry → List (String × List String × List String)
  | [] => []
  | e :: rest =>
    (match e with
     | .file _ => []
     | .dir n _ => osWalk (pathJoin path n) e) ++ osWalkList path rest

end

/-- The paths appended for one `os.walk` row by the inner loop of
`get_files_from_directory`. -/
def walkFilesOf (row : String × List String × List String) : List String :=
  row.2.2.map (fun file => pathJoin row.1 file)

/-- `get_files_from_directory` from src/main.py: append
`os.path.join(root, file)` for every row of `os.walk(directory)` and every
file of that row, in order. -/
def get_files_from_directory (directory : String) (t : FSEntry) : List String :=
  (osWalk directory t).foldl (fun all_files row => all_files ++ walkFilesOf row) []

mutual

/-- Follows the amended claim's words: the collected paths are the
directory's own files first, in listing order, then the files of each
subdirectory recursively, subdirectories in listing order — no sorting
anywhere. -/
def filesInListingOrder (path : String) : FSEntry → List String
  | .file _ => []
  | .dir _ es =>
    (fileNames es).map (fun file => pathJoin path file)
      ++ filesInListingOrderList path es

/-- The recursive part of `filesInListingOrder` over a listing. -/
def filesInListingOrderList (path : String) : List FSEntry → List String
  | [] => []
  | e :: rest =>
    (match e with
     | .file _ => []
     | .dir n _ => filesInListingOrder (pathJoin path n) e)
      ++ filesInListingOrderList path rest

end

/-! ### src/project_structure.py -/

/-- Lexicographic comparison of entry names by code points — the order
Python's `sorted` uses on strings. -/
def nameLe (a b : FSEntry) : Prop := a.name.data ≤ b.name.data

instance : DecidableRel nameLe :=
  fun a b => inferInstanceAs (Decidable (a.name.data ≤ b.name.data))

instance : IsTotal FSEntry nameLe := ⟨fun a b => le_total a.name.data b.name.data⟩

instance : IsTrans FSEntry nameLe := ⟨fun _ _ _ h h2 => le_trans h h2⟩

/-- `sorted(os.listdir(directory))`: the listing sorted by name.  (Names
within one directory are distinct on a real filesystem, so any sort
agreeing with the order matches Python's stable Timsort.) -/
def sortEntries (es : List FSEntry) : List FSEntry := List.insertionSort nameLe es

/-- The tuple passed to `entry.startswith(...)` in
src/project_structure.py. -/
def TREE_IGNORED_STARTSWITH : List String :=
  [".", "__pycache__", ".git", ".idea", ".ipynb_checkpoints"]

/-- Whether a directory entry is pruned from the tree: its name starts with
one of the ignored strings.  (Only directories are tested; files are always
rendered.) -/
def isPrunedDir (nm : String) : Bool :=
  TREE_IGNORED_STARTSWITH.any (fun p => p.data.isPrefixOf nm.data)

/-- The connector of the entry at position `i` of a listing of `n` sorted
entries: the closing connector exactly for the last position of the full
listing. -/
def connFor (i n : Nat) : String := if i = n - 1 then "└── " else "├── "

/-- The prefix continuation below the entry at position `i` of `n`. -/
def indentFor (i n : Nat) : String := if i = n - 1 then "    " else "│   "

mutual

/-- `generate_tree_structure` from src/project_structure.py: sort the
listing, then render each entry with a connector chosen by its index in the
full sorted listing; files become one line, unpruned directories a header
line plus their recursive rendering, pruned directories nothing. -/
def generate_tree_structure : FSEntry → String → List String
  | .file _, _ => []
  | .dir _ es, pre =>
    renderLevel (sortEntries es) pre 0 (sortEntries es).length
termination_by t _ => sizeOf t
decreasing_by
  have key : ∀ (l₁ l₂ : List FSEntry), l₁.Perm l₂ → sizeOf l₁ = sizeOf l₂ := by
    intro l₁ l₂ hp
    induction hp with
    | nil => rfl
    | cons x _ ih => simp [ih]
    | swap x y l => simp; omega
    | trans _ _ ih₁ ih₂ => omega
  have h2 : sizeOf (sortEntries es) = sizeOf es :=
    key _ _ (List.perm_insertionSort nameLe es)
  simp [h2]

/-- The loop body of `generate_tree_structure`: render the entries from
index `i` onward of a level whose full sorted listing has `n` entries. -/
def renderLevel : List FSEntry → String → Nat → Nat → List String
  | [], _, _, _ => []
  | .file nm :: rest, pre, i, n =>
    (pre ++ connFor i n ++ nm) :: renderLevel rest pre (i + 1) n
  | .dir nm ces :: rest, pre, i, n =>
    if isPrunedDir nm then renderLevel rest pre (i + 1) n
    else (pre ++ connFor i n ++ nm ++ "/")
      :: (generate_tree_structure (.dir nm ces) (pre ++ indentFor i n)
          ++ renderLevel rest pre (i + 1) n)
termination_by l _ _ _ => sizeOf l
decreasing_by
  all_goals (simp <;> omega)

end

/-- The lines rendered for the entry at index `i` of a level of `n` sorted
entries (the body of `renderLevel` for one entry). -/
def renderEntryLines (pre : String) (n : Nat) (p : Nat × FSEntry) : List String :=
  match p with
  | (i, .file nm) => [pre ++ connFor i n ++ nm]
  | (i, .dir nm ces) =>
    if isPrunedDir nm then []
    else (pre ++ connFor i n ++ nm ++ "/")
      :: generate_tree_structure (.dir nm ces) (pre ++ indentFor i n)

/-! ### Claim theorems -/

/-- C1: `build_final_prompt` never returns the two prompt strings: the
`STANDARD_INFORMATION.format(...)` call at src/main.py:287 supplies the
keys `PROJECT_STRUCTURE_PROMPT`, `PROJECT_FILES_PROMPT` and
`STANDARD_NOTES` but not `ROLE_PROMPT`, which the template contains, so
Python raises `KeyError: 'ROLE_PROMPT'` for every input — including inputs
whose parameter mapping covers all of the selected template's required
parameters. -/
theorem build_final_prompt_always_raises_keyerror
    (role project_structure project_files prompt_template : String)
    (additional_params : List (String × String)) :
    build_final_prompt role project_structure project_files prompt_template
        additional_params
      = Except.error "ROLE_PROMPT" :=
  rfl

/-- C5: in live mode every transport failure is re-raised as the single
uniform `ValueError` whose message is `API_ERROR_MESSAGE`, independent of the
underlying failure, and exactly one remote call is performed (no retry). -/
theorem call_openai_api_uniform_error_single_call (e d : String)
    (t : Nat → TransportResult) (h : t 0 = TransportResult.failure e) :
    call_openai_api true t d = (Except.error API_ERROR_MESSAGE, 1) := by
  simp [call_openai_api, h]

/-- Witness for `call_openai_api_uniform_error_single_call` at a concrete
failing transport. -/
theorem call_openai_api_uniform_error_single_call_witness :
    call_openai_api true (fun _ => TransportResult.failure "timeout") "dummy"
      = (Except.error API_ERROR_MESSAGE, 1) :=
  call_openai_api_uniform_error_single_call "timeout" "dummy" _ rfl

/-- C4 counterexample: the live gateway strips the transport content, so for
the content `" X "` it returns `"X"`, not `" X "` unmodified as the claim
states. -/
theorem call_openai_api_not_unmodified_counterexample :
    (call_openai_api true (fun _ => TransportResult.success " X ") "dummy").1
        = Except.ok "X"
      ∧ (" X " : String) ≠ "X" :=
  ⟨rfl, by decide⟩

/-- C4 (amended): in live mode the gateway returns the transport content
with leading and trailing whitespace stripped; in particular it returns the
content unmodified exactly when the content has no leading or trailing
whitespace. -/
theorem call_openai_api_returns_stripped_content (x d : String)
    (t : Nat → TransportResult) (h : t 0 = TransportResult.success x) :
    (call_openai_api true t d).1 = Except.ok (pyStrip x)
      ∧ (pyStrip x = x → (call_openai_api true t d).1 = Except.ok x) := by
  constructor
  · simp [call_openai_api, h]
  · intro hx
    simp [call_openai_api, h, hx]

/-- Witness for `call_openai_api_returns_stripped_content` at a concrete
whitespace-free content. -/
theorem call_openai_api_returns_stripped_content_witness :
    (call_openai_api true (fun _ => TransportResult.success "X") "dummy").1
      = Except.ok "X" :=
  (call_openai_api_returns_stripped_content "X" "dummy" _ rfl).2 rfl

/-- C6: on live-mode success the response string is written verbatim to the
file named `openai_response_<timestamp-to-the-second>.txt`; a successful
write returns the response, and a failing write propagates as an `osError`,
a kind distinct from the `valueError` used for API-communication failures
and never swallowed. -/
theorem process_and_analyze_file_persistence_contract (c d sc uc : String)
    (now : DateTime) (w : String → String → WriteResult) :
    process_and_analyze_file true (fun _ => TransportResult.success c) d sc uc now w
        = (match w ("openai_response_" ++ strftime_Ymd_HMS now ++ ".txt") (pyStrip c) with
           | WriteResult.ok => Except.ok (pyStrip c)
           | WriteResult.ioError m => Except.error (PyError.osError m))
      ∧ (∀ m msg, PyError.osError m ≠ PyError.valueError msg) := by
  constructor
  · rfl
  · intro m msg heq
    exact PyError.noConfusion heq

/-- C2: in file mode with zero valid paths, `ask_directory_or_files` does
not re-ask the question: it completes at once with the empty list, and on
an invalid d/f choice it completes with `None`. -/
theorem ask_directory_or_files_returns_empty_without_reprompt :
    ask_directory_or_files (fun _ => false) (fun _ => false) (fun _ => [])
        "f" "/nope/a.txt, /nope/b.txt" = some []
      ∧ ask_directory_or_files (fun _ => false) (fun _ => false) (fun _ => [])
        "x" "anything" = none :=
  ⟨rfl, rfl⟩

/-- Helper: one step of `extract_file_content` contributes exactly
`recordFor` of the head. -/
theorem extract_file_content_cons (detect : String → Option String)
    (relpath : String → String) (read : String → Option String)
    (file : String) (rest : List String) :
    extract_file_content detect relpath read (file :: rest)
      = recordFor detect relpath read file
          ++ extract_file_content detect relpath read rest := by
  cases h1 : should_ignore_file file with
  | true => simp [extract_file_content, recordFor, h1]
  | false =>
    cases h2 : is_in_ignored_directory file with
    | true => simp [extract_file_content, recordFor, h1, h2]
    | false =>
      cases hr : read file with
      | none => simp [extract_file_content, recordFor, h1, h2, hr]
      | some raw =>
        by_cases h3 : pyStrip raw = ""
        · simp [extract_file_content, recordFor, h1, h2, hr, h3]
        · simp [extract_file_content, recordFor, h1, h2, hr, h3]

/-- Helper: a file under a `.git` or `__pycache__` directory is in an
ignored directory. -/
theorem is_in_ignored_directory_of_underGitOrPycache (file : String)
    (h : underGitOrPycache file = true) : is_in_ignored_directory file = true := by
  simp only [underGitOrPycache, Bool.or_eq_true] at h
  simp only [is_in_ignored_directory, IGNORED_DIRECTORIES, List.any_eq_true]
  rcases h with h | h
  · exact ⟨".git", by simp, h⟩
  · exact ⟨"__pycache__", by simp, h⟩

/-- Helper: a file in an ignored directory contributes no record. -/
theorem recordFor_eq_nil_of_ignored_directory (detect : String → Option String)
    (relpath : String → String) (read : String → Option String) (file : String)
    (h : is_in_ignored_directory file = true) :
    recordFor detect relpath read file = [] := by
  cases h1 : should_ignore_file file with
  | true => simp [recordFor, h1]
  | false => simp [recordFor, h1, h]

/-- C7: removing from the input every file that lies anywhere under a
directory named `.git` or `__pycache__` (at any nesting depth) leaves the
output of `extract_file_content` unchanged — those files produce zero
`FileRecord`s. -/
theorem extract_file_content_skips_ignored_directories
    (detect : String → Option String) (relpath : String → String)
    (read : String → Option String) (files : List String) :
    extract_file_content detect relpath read files
      = extract_file_content detect relpath read
          (files.filter (fun f => !underGitOrPycache f)) := by
  induction files with
  | nil => rfl
  | cons f rest ih =>
    cases h : underGitOrPycache f with
    | false =>
      rw [List.filter_cons]
      simp only [h, Bool.not_false, if_pos]
      rw [extract_file_content_cons, extract_file_content_cons, ih]
    | true =>
      have hig := is_in_ignored_directory_of_underGitOrPycache f h
      rw [List.filter_cons]
      simp only [h, Bool.not_true]
      rw [extract_file_content_cons,
        recordFor_eq_nil_of_ignored_directory detect relpath read f hig]
      simpa using ih

/-- Helper: a file whose content trims to empty contributes no record. -/
theorem recordFor_eq_nil_of_readsToEmpty (detect : String → Option String)
    (relpath : String → String) (read : String → Option String) (file : String)
    (h : readsToEmpty read file = true) :
    recordFor detect relpath read file = [] := by
  cases h1 : should_ignore_file file with
  | true => simp [recordFor, h1]
  | false =>
    cases h2 : is_in_ignored_directory file with
    | true => simp [recordFor, h1, h2]
    | false =>
      cases hr : read file with
      | none => simp [readsToEmpty, hr] at h
      | some raw =>
        simp only [readsToEmpty, hr, beq_iff_eq] at h
        simp [recordFor, h1, h2, hr, h]

/-- Helper: every record produced for a single file has non-empty
content. -/
theorem recordFor_content_ne_empty (detect : String → Option String)
    (relpath : String → String) (read : String → Option String) (file : String) :
    (recordFor detect relpath read file).all (fun rec => !(rec.content == ""))
      = true := by
  cases h1 : should_ignore_file file with
  | true => simp [recordFor, h1]
  | false =>
    cases h2 : is_in_ignored_directory file with
    | true => simp [recordFor, h1, h2]
    | false =>
      cases hr : read file with
      | none => simp [recordFor, h1, h2, hr]
      | some raw =>
        by_cases h3 : pyStrip raw = ""
        · simp [recordFor, h1, h2, hr, h3]
        · simp [recordFor, h1, h2, hr, h3]

/-- C9: a file whose content is empty after trimming contributes no
`FileRecord` — removing all such files from the input leaves the output of
`extract_file_content` unchanged — and consequently every produced record
has non-empty content. -/
theorem extract_file_content_excludes_empty_content
    (detect : String → Option String) (relpath : String → String)
    (read : String → Option String) (files : List String) :
    extract_file_content detect relpath read files
        = extract_file_content detect relpath read
            (files.filter (fun f => !readsToEmpty read f))
      ∧ (extract_file_content detect relpath read files).all
            (fun rec => !(rec.content == "")) = true := by
  constructor
  · induction files with
    | nil => rfl
    | cons f rest ih =>
      cases h : readsToEmpty read f with
      | false =>
        rw [List.filter_cons]
        simp only [h, Bool.not_false, if_pos]
        rw [extract_file_content_cons, extract_file_content_cons, ih]
      | true =>
        rw [List.filter_cons]
        simp only [h, Bool.not_true]
        rw [extract_file_content_cons,
          recordFor_eq_nil_of_readsToEmpty detect relpath read f h]
        simpa using ih
  · induction files with
    | nil => rfl
    | cons f rest ih =>
      rw [extract_file_content_cons, List.all_append]
      rw [recordFor_content_ne_empty, ih]
      rfl

/-- Helper: Python substring containment coincides with `List.IsInfix` on
the code points. -/
theorem pyIn_iff_isInfix (needle hay : String) :
    pyIn needle hay = true ↔ List.IsInfix needle.data hay.data := by
  rw [List.infix_iff_prefix_suffix]
  simp only [pyIn, List.any_eq_true, List.mem_tails]
  constructor
  · rintro ⟨t, hsuf, hpre⟩
    exact ⟨t, List.isPrefixOf_iff_prefix.mp hpre, hsuf⟩
  · rintro ⟨t, hpre, hsuf⟩
    exact ⟨t, hsuf, List.isPrefixOf_iff_prefix.mpr hpre⟩

/-- C10: `should_ignore_file` returns true exactly when the file's basename
contains one of the fixed patterns as a substring of its code points. -/
theorem should_ignore_file_iff_basename_substring (file_path : String) :
    should_ignore_file file_path = true
      ↔ ∃ pattern, pattern ∈ IGNORED_FILE_PATTERNS
          ∧ List.IsInfix pattern.data (basename file_path).data := by
  simp only [should_ignore_file, List.any_eq_true]
  constructor
  · rintro ⟨pattern, hmem, hin⟩
    exact ⟨pattern, hmem, (pyIn_iff_isInfix pattern (basename file_path)).mp hin⟩
  · rintro ⟨pattern, hmem, hin⟩
    exact ⟨pattern, hmem, (pyIn_iff_isInfix pattern (basename file_path)).mpr hin⟩

/-- Witness for `should_ignore_file_iff_basename_substring`: a file whose
name merely contains `.env` is ignored although its name is not in the
ignore list. -/
theorem should_ignore_file_iff_basename_substring_witness :
    should_ignore_file "src/app.env.backup" = true :=
  (should_ignore_file_iff_basename_substring "src/app.env.backup").mpr
    ⟨".env", by decide, ⟨"app".data, ".backup".data, by decide⟩⟩

/-- Helper: folding append over a list collects the mapped pieces. -/
theorem foldl_append_flatten {α β : Type} (g : α → List β) :
    ∀ (l : List α) (init : List β),
      l.foldl (fun acc x => acc ++ g x) init = init ++ (l.map g).flatten := by
  intro l
  induction l with
  | nil => intro init; simp
  | cons x xs ih => intro init; simp [ih, List.append_assoc]

mutual

/-- Helper: the files collected from the rows of `os.walk` are exactly the
files in listing order. -/
theorem osWalk_files (p : String) (t : FSEntry) :
    ((osWalk p t).map walkFilesOf).flatten = filesInListingOrder p t := by
  cases t with
  | file n => simp [osWalk, filesInListingOrder]
  | dir n es =>
    simp only [osWalk, filesInListingOrder, List.map_cons, List.flatten_cons]
    rw [osWalkList_files p es]
    rfl

/-- Helper: the same, over the subdirectories of one listing. -/
theorem osWalkList_files (p : String) (es : List FSEntry) :
    ((osWalkList p es).map walkFilesOf).flatten = filesInListingOrderList p es := by
  cases es with
  | nil => simp [osWalkList, filesInListingOrderList]
  | cons e rest =>
    cases e with
    | file fn =>
      simp only [osWalkList, filesInListingOrderList]
      rw [List.map_append, List.flatten_append, osWalkList_files p rest]
      rfl
    | dir dn ces =>
      simp only [osWalkList, filesInListingOrderList]
      rw [List.map_append, List.flatten_append, osWalkList_files p rest,
        osWalk_files (pathJoin p dn) (FSEntry.dir dn ces)]

end

/-- C3 (amended): `get_files_from_directory` is a pure function of the
filesystem state including its listing order — for each directory of the
walk it emits that directory's files in listing order, the root's files
first and each subdirectory's files following recursively — but it performs
no sorting, so the order is the operating system's listing order, not the
lexicographic one. -/
theorem get_files_from_directory_walk_order (directory : String) (t : FSEntry) :
    get_files_from_directory directory t = filesInListingOrder directory t := by
  unfold get_files_from_directory
  rw [foldl_append_flatten, osWalk_files]
  rfl

/-- C3 counterexample: on a filesystem state whose listing order is not
sorted, the output is not lexicographically sorted — the collector sorts
nothing, contradicting the claim that determinism is achieved by sorting
the entries at each directory level. -/
theorem get_files_from_directory_unsorted_counterexample :
    get_files_from_directory "d"
        (FSEntry.dir "d" [FSEntry.file "b.txt", FSEntry.file "a.txt"])
        = ["d/b.txt", "d/a.txt"]
      ∧ ¬ List.Sorted (fun a b : String => a.data ≤ b.data)
          (get_files_from_directory "d"
            (FSEntry.dir "d" [FSEntry.file "b.txt", FSEntry.file "a.txt"])) := by
  constructor
  · rfl
  · show ¬ List.Sorted _ (["d/b.txt", "d/a.txt"] : List String)
    decide

/-- Helper: unfolding `generate_tree_structure` on a directory. -/
theorem generate_tree_structure_dir (nm : String) (es : List FSEntry) (pre : String) :
    generate_tree_structure (.dir nm es) pre
      = renderLevel (sortEntries es) pre 0 (sortEntries es).length := by
  conv_lhs => rw [generate_tree_structure.eq_def]

/-- Helper: unfolding `renderLevel` on the empty level. -/
theorem renderLevel_nil (pre : String) (i n : Nat) : renderLevel [] pre i n = [] := by
  conv_lhs => rw [renderLevel.eq_def]

/-- Helper: unfolding `renderLevel` on a file entry. -/
theorem renderLevel_file (nm : String) (rest : List FSEntry) (pre : String) (i n : Nat) :
    renderLevel (.file nm :: rest) pre i n
      = (pre ++ connFor i n ++ nm) :: renderLevel rest pre (i + 1) n := by
  conv_lhs => rw [renderLevel.eq_def]

/-- Helper: unfolding `renderLevel` on a directory entry. -/
theorem renderLevel_dir (nm : String) (ces rest : List FSEntry) (pre : String) (i n : Nat) :
    renderLevel (.dir nm ces :: rest) pre i n
      = if isPrunedDir nm then renderLevel rest pre (i + 1) n
        else (pre ++ connFor i n ++ nm ++ "/")
          :: (generate_tree_structure (.dir nm ces) (pre ++ indentFor i n)
              ++ renderLevel rest pre (i + 1) n) := by
  conv_lhs => rw [renderLevel.eq_def]

/-- Helper: `renderLevel` renders the entries from index `i` on, each by
`renderEntryLines` at its index in the full listing. -/
theorem renderLevel_eq_enumFrom (l : List FSEntry) (pre : String) (n : Nat) :
    ∀ i, renderLevel l pre i n
      = ((List.enumFrom i l).map (renderEntryLines pre n)).flatten := by
  induction l with
  | nil => intro i; simp [renderLevel_nil]
  | cons e rest ih =>
    intro i
    cases e with
    | file nm => simp [renderLevel_file, List.enumFrom, renderEntryLines, ih]
    | dir nm ces =>
      by_cases h : isPrunedDir nm = true
      · simp [renderLevel_dir, h, List.enumFrom, renderEntryLines, ih]
      · simp [renderLevel_dir, h, List.enumFrom, renderEntryLines, ih]

/-- C8 (amended): the renderer processes each level in lexicographically
sorted order (by code points), and the connector of an entry is chosen by
its index in the full sorted listing — `└── ` exactly at the last index —
even though pruned directories at the end of the listing are not rendered,
so the closing connector can go unrendered. -/
theorem tree_renderer_sorted_with_full_index_connectors (nm : String)
    (es : List FSEntry) (pre : String) :
    List.Sorted nameLe (sortEntries es)
      ∧ generate_tree_structure (.dir nm es) pre
          = ((sortEntries es).enum.map
              (renderEntryLines pre (sortEntries es).length)).flatten := by
  constructor
  · exact List.sorted_insertionSort nameLe es
  · rw [generate_tree_structure_dir, renderLevel_eq_enumFrom]
    rfl

/-- C8 counterexample: in a directory holding the file `A.txt` and the
(pruned) directory `__pycache__`, the last entry of the full sorted listing
is the pruned directory, so the last rendered entry — the only line — uses
`├── `, not the closing connector the claim requires. -/
theorem tree_renderer_last_rendered_connector_counterexample :
    generate_tree_structure
        (FSEntry.dir "root" [FSEntry.file "A.txt", FSEntry.dir "__pycache__" []]) ""
        = ["├── A.txt"]
      ∧ ("├── A.txt" : String) ≠ "└── A.txt" := by
  constructor
  · have hs : sortEntries [FSEntry.file "A.txt", FSEntry.dir "__pycache__" []]
        = [FSEntry.file "A.txt", FSEntry.dir "__pycache__" []] := rfl
    rw [generate_tree_structure_dir, hs, renderLevel_file, renderLevel_dir,
      if_pos (show isPrunedDir "__pycache__" = true from rfl), renderLevel_nil]
    decide
  · decide
